import Mathlib

/-!
Shallow embedding of the `transfer_hook` Solana/Anchor program
(`src/src/lib.rs`) and proofs of its specification claims.

Machine integers are modelled as `Nat` (with explicit bounds or `% 2^w`
where overflow matters); public keys are 32-entry byte lists; fallible
operations return `Except`; the panic of `Option::unwrap` is modelled by
an explicit outcome constructor.
-/

/-- A Solana public key: 32 bytes, each `< 256`.  Modelled as a byte list. -/
abbrev Pubkey := List Nat

/-- `TOKEN_2022_PROGRAM_ID` from the source (`Pubkey::new_from_array([0x6, 0xdd, ...])`),
the trusted host-engine identity. -/
def TOKEN_2022_PROGRAM_ID : Pubkey :=
  [6, 221, 246, 225, 238, 117, 143, 222, 24, 66, 93, 188, 228, 108, 205, 218,
   182, 26, 252, 77, 131, 185, 13, 39, 254, 189, 249, 40, 216, 161, 139, 252]

/-- `solana_program::sysvar::instructions::ID`
(`Sysvar1nstructions1111111111111111111111111`), byte form. -/
def sysvarInstructionsID : Pubkey :=
  [6, 167, 213, 23, 24, 123, 209, 102, 53, 218, 212, 4, 85, 253, 194, 192,
   193, 36, 198, 143, 33, 86, 117, 165, 219, 186, 203, 95, 8, 0, 0, 0]

/-- This program's own id, `declare_id!("B2tN85yQ3ta8965WYns4DnitH9YJ9JnBsPb1dF1ghb15")`,
byte form. -/
def hookProgramID : Pubkey :=
  [149, 16, 135, 25, 93, 40, 3, 120, 183, 155, 3, 139, 6, 180, 110, 244,
   46, 212, 238, 192, 255, 132, 104, 74, 98, 162, 252, 106, 171, 208, 95, 252]

/-- `spl_pod::error::PodSliceError`: the decode errors of the pod-slice
reader.  On chain each is surfaced as `ProgramError::Custom(e as u32)`. -/
inductive PodSliceError where
  | CalculationFailure
  | BufferTooSmall
  | BufferTooLarge
  deriving DecidableEq, Repr

/-- Errors of the Solana runtime / SPL libraries surfaced through `?`
(`ProgramError` in the source).  `Custom` carries the `PodSliceError` that
produced it (on chain, its numeric code). -/
inductive ProgErr where
  | UnsupportedSysvar
  | InvalidArgument
  | InvalidInstructionData
  | InvalidAccountData
  | Custom (e : PodSliceError)
  deriving DecidableEq, Repr

/-- The program's own `#[error_code] enum ErrorCode` from the source. -/
inductive ErrorCode where
  | UnauthorizedCaller
  | InvalidInstruction
  deriving DecidableEq, Repr

/-- The error type of the whole program (Anchor's `Error`): either one of the
program's own `ErrorCode`s (raised via `err!`), a runtime/library
`ProgramError` propagated by `?`, the system program's account-creation
failure, or an Anchor account-constraint violation. -/
inductive Err where
  | anchor (e : ErrorCode)
  | program (e : ProgErr)
  | accountAlreadyInUse
  | accountConstraintViolation
  deriving DecidableEq, Repr

/-- An account passed to an instruction (`AccountInfo`): only its address is
inspected by the code under verification. -/
structure AccountInfo where
  key : Pubkey
  deriving DecidableEq, Repr

/-- One entry of the per-transaction instruction log (a sanitized
`Instruction`): the identity of the program the instruction targets and its
opaque payload.  Only `program_id` is inspected by the code. -/
structure IxRecord where
  program_id : Pubkey
  data : List Nat
  deriving DecidableEq, Repr

/-- The content of the instructions sysvar for the current transaction: the
index of the currently executing top-level instruction (a `u16` on chain) and
the ordered list of the transaction's instructions. -/
structure InstructionLog where
  currentIndex : Nat
  instructions : List IxRecord
  deriving DecidableEq, Repr

/-- `solana_program::sysvar::instructions::load_current_index_checked`:
fails with `UnsupportedSysvar` unless the supplied account is at the
instructions-sysvar address; otherwise returns the current instruction index
stored in the sysvar data. -/
def load_current_index_checked (log : InstructionLog) (acc : AccountInfo) :
    Except ProgErr Nat :=
  if acc.key = sysvarInstructionsID then .ok log.currentIndex
  else .error .UnsupportedSysvar

/-- `solana_program::sysvar::instructions::load_instruction_at_checked`:
fails with `UnsupportedSysvar` unless the account is at the
instructions-sysvar address; fails with `InvalidArgument` when the index is
out of bounds (`SanitizeError::IndexOutOfBounds`); otherwise returns the
instruction recorded at that index. -/
def load_instruction_at_checked (index : Nat) (log : InstructionLog)
    (acc : AccountInfo) : Except ProgErr IxRecord :=
  if acc.key = sysvarInstructionsID then
    match log.instructions[index]? with
    | some ix => .ok ix
    | none => .error .InvalidArgument
  else .error .UnsupportedSysvar

/-- Little-endian byte decoding (`u64::from_le_bytes` and friends). -/
def leBytesToNat : List Nat → Nat
  | [] => 0
  | b :: bs => b + 256 * leBytesToNat bs

/-- Little-endian byte encoding of width `n` (`u64::to_le_bytes` is width 8). -/
def natToLEBytes : Nat → Nat → List Nat
  | 0, _ => []
  | n + 1, a => a % 256 :: natToLEBytes n (a / 256)

/-- `amount.to_le_bytes()` for a `u64`. -/
def u64ToLEBytes (a : Nat) : List Nat := natToLEBytes 8 a

/-- `ExecuteInstruction`'s 8-byte SPL discriminator:
the first 8 bytes of `sha256("spl-transfer-hook-interface:execute")`. -/
def EXECUTE_DISCRIMINATOR : List Nat := [105, 37, 101, 197, 75, 251, 102, 26]

/-- `InitializeExtraAccountMetaListInstruction`'s 8-byte SPL discriminator:
first 8 bytes of `sha256("spl-transfer-hook-interface:initialize-extra-account-metas")`. -/
def INITIALIZE_EAM_DISCRIMINATOR : List Nat := [43, 34, 13, 49, 167, 88, 235, 235]

/-- `UpdateExtraAccountMetaListInstruction`'s 8-byte SPL discriminator:
first 8 bytes of `sha256("spl-transfer-hook-interface:update-extra-account-metas")`. -/
def UPDATE_EAM_DISCRIMINATOR : List Nat := [157, 105, 42, 146, 102, 85, 241, 174]

/-- `spl_tlv_account_resolution::account::ExtraAccountMeta`: one
resource-reference entry of the descriptor.  `discriminator = 0` means a
fixed address stored in `addressConfig`. -/
structure ExtraAccountMeta where
  discriminator : Nat
  addressConfig : Pubkey
  isSigner : Bool
  isWritable : Bool
  deriving DecidableEq, Repr

/-- `ExtraAccountMeta::new_with_pubkey(&key, is_signer, is_writable)`:
a fixed-address entry (discriminator 0). -/
def ExtraAccountMeta.new_with_pubkey (key : Pubkey) (is_signer is_writable : Bool) :
    ExtraAccountMeta :=
  ⟨0, key, is_signer, is_writable⟩

/-- Pod serialization of one `ExtraAccountMeta` (35 bytes: 1 discriminator,
32 address-config, 1 is-signer flag, 1 is-writable flag). -/
def serializeMeta (m : ExtraAccountMeta) : List Nat :=
  m.discriminator :: m.addressConfig ++ [cond m.isSigner 1 0, cond m.isWritable 1 0]

/-- `PodSlice::<ExtraAccountMeta>::unpack` (spl-pod) followed by `.data()`:
a 4-byte little-endian count followed by a packed item buffer.  Its failure
paths, in source order: a buffer shorter than the 4-byte length prefix fails
with `PodSliceError::BufferTooSmall` (a `ProgramError::Custom`); a length
prefix claiming more items than fit in the remaining buffer fails inside
`max_len_for_type` with `PodSliceError::BufferTooSmall`; a remaining buffer
that is not a whole number of 35-byte items fails the `bytemuck` slice cast
in `pod_slice_from_bytes`, mapped to `ProgramError::InvalidArgument`.  On
success `.data()` yields the first `count` items. -/
def podSliceUnpackMetas (data : List Nat) : Except ProgErr (List ExtraAccountMeta) :=
  if data.length < 4 then .error (.Custom .BufferTooSmall)
  else if (data.drop 4).length / 35 < leBytesToNat (data.take 4) then
    .error (.Custom .BufferTooSmall)
  else if (data.drop 4).length % 35 = 0 then
    .ok ((List.range (leBytesToNat (data.take 4))).map (fun i =>
      { discriminator := (((data.drop 4).drop (35 * i)).take 35).headI
        addressConfig := ((((data.drop 4).drop (35 * i)).take 35).drop 1).take 32
        isSigner := (((data.drop 4).drop (35 * i)).take 35).getD 33 0 ≠ 0
        isWritable := (((data.drop 4).drop (35 * i)).take 35).getD 34 0 ≠ 0 }))
  else .error .InvalidArgument

/-- `spl_transfer_hook_interface::instruction::TransferHookInstruction`. -/
inductive TransferHookInstruction where
  | Execute (amount : Nat)
  | InitializeExtraAccountMetaList (extra_account_metas : List ExtraAccountMeta)
  | UpdateExtraAccountMetaList (extra_account_metas : List ExtraAccountMeta)
  deriving DecidableEq, Repr

/-- `TransferHookInstruction::unpack`: splits off the 8-byte SPL
discriminator and decodes the rest.  `Execute` reads a `u64` LE amount from
the next 8 bytes; the two extra-account-metas tags read a pod slice; any
other discriminator (or a too-short input) fails with
`InvalidInstructionData`. -/
def TransferHookInstruction.unpack (input : List Nat) :
    Except ProgErr TransferHookInstruction :=
  if input.length < 8 then .error .InvalidInstructionData
  else if input.take 8 = EXECUTE_DISCRIMINATOR then
    if 8 ≤ (input.drop 8).length then
      .ok (.Execute (leBytesToNat ((input.drop 8).take 8)))
    else .error .InvalidInstructionData
  else if input.take 8 = INITIALIZE_EAM_DISCRIMINATOR then
    (podSliceUnpackMetas (input.drop 8)).map .InitializeExtraAccountMetaList
  else if input.take 8 = UPDATE_EAM_DISCRIMINATOR then
    (podSliceUnpackMetas (input.drop 8)).map .UpdateExtraAccountMetaList
  else .error .InvalidInstructionData

/-- The outcome of one run of the `fallback` handler, up to its final
re-dispatch: it panics (the `accounts.last().unwrap()` on an empty list),
fails with a structured error, or reaches the in-process re-dispatch
`__private::__global::transfer_hook(program_id, accounts, &amount_bytes)`,
recorded with the account list and argument bytes it passes on. -/
inductive FallbackStep where
  | panics
  | fails (e : Err)
  | dispatches (accounts : List AccountInfo) (amountBytes : List Nat)
  deriving DecidableEq, Repr

/-- The `fallback` handler from the source, transcribed line by line.  The
instructions sysvar's content `log` is the state the real handler reads
through the last account; the final call into the generated native handler
is represented by the `dispatches` outcome. -/
def fallback (log : InstructionLog) (accounts : List AccountInfo)
    (data : List Nat) : FallbackStep :=
  -- let instructions_sysvar_info = accounts.last().unwrap();
  match accounts.getLast? with
  | none => .panics
  | some instructions_sysvar_info =>
    -- let current_ix_index = load_current_index_checked(instructions_sysvar_info)?;
    match load_current_index_checked log instructions_sysvar_info with
    | .error e => .fails (.program e)
    | .ok current_ix_index =>
      -- if current_ix_index == 0 { return err!(ErrorCode::UnauthorizedCaller); }
      if current_ix_index = 0 then .fails (.anchor .UnauthorizedCaller)
      else
        -- let caller_ix = load_instruction_at_checked(current_ix_index as usize, ...)?;
        match load_instruction_at_checked current_ix_index log instructions_sysvar_info with
        | .error e => .fails (.program e)
        | .ok caller_ix =>
          -- if caller_ix.program_id != TOKEN_2022_PROGRAM_ID { return err!(...); }
          if caller_ix.program_id ≠ TOKEN_2022_PROGRAM_ID then
            .fails (.anchor .UnauthorizedCaller)
          else
            -- let instruction = TransferHookInstruction::unpack(data)?;
            match TransferHookInstruction.unpack data with
            | .error e => .fails (.program e)
            | .ok instruction =>
              match instruction with
              | .Execute amount => .dispatches accounts (u64ToLEBytes amount)
              | _ => .fails (.anchor .InvalidInstruction)

/-- The fixed account set of the hook entry point (`#[derive(Accounts)]
struct TransferHook`): source holding, asset identifier, destination
holding, owner, descriptor storage, instructions sysvar. -/
structure TransferHookCtx where
  source_token : AccountInfo
  mint : AccountInfo
  destination_token : AccountInfo
  owner : AccountInfo
  extra_account_meta_list : AccountInfo
  instructions_sysvar : AccountInfo
  deriving DecidableEq, Repr

/-- The business rule handler `transfer_hook` from the source: a stub that
ignores its context and amount and unconditionally approves. -/
def transfer_hook (_ctx : TransferHookCtx) (_amount : Nat) : Except Err Unit :=
  -- TODO: human verification logic   (verbatim state of the source)
  .ok ()

/-- Modelled from the spec: the framework-generated account validation
(`TransferHook::try_accounts`) of the hook entry point, which is macro
expansion absent from `src/`.  Spec §6 fixes the order of the first six
accounts and requires the instructions-sysvar address to match the
well-known identity (`#[account(address = sysvar::instructions::ID)]` in the
declaration); the remaining token/mint/seed constraints are framework code
abstracted here as the boolean `accountsOk`. -/
def tryAccounts (accountsOk : Bool) (accounts : List AccountInfo) :
    Except Err TransferHookCtx :=
  match accounts with
  | s :: m :: d :: o :: e :: i :: _ =>
    if accountsOk then
      if i.key = sysvarInstructionsID then .ok ⟨s, m, d, o, e, i⟩
      else .error .accountConstraintViolation
    else .error .accountConstraintViolation
  | _ => .error .accountConstraintViolation

deriving instance DecidableEq for Except

/-- The observable outcome of one invocation of the whole program. -/
inductive EntryOutcome where
  | handlerInvoked (amount : Nat) (result : Except Err Unit)
  | initializerRouted
  | failed (e : Err)
  | panicked
  deriving DecidableEq, Repr

/-- Modelled from the spec: the framework-generated native handler for the
hook instruction (`__private::__global::transfer_hook`), macro expansion
absent from `src/`.  It deserializes the 64-bit little-endian amount from
the argument bytes, validates the account set, and invokes the business rule
handler `transfer_hook` on success. -/
def globalTransferHook (accountsOk : Bool) (accounts : List AccountInfo)
    (ixData : List Nat) : EntryOutcome :=
  if ixData.length < 8 then .failed (.program .InvalidInstructionData)
  else
    match tryAccounts accountsOk accounts with
    | .error e => .failed e
    | .ok ctx =>
      let amount := leBytesToNat (ixData.take 8)
      .handlerInvoked amount (transfer_hook ctx amount)

/-- Anchor's 8-byte discriminator for the native `transfer_hook` catalogue
entry: first 8 bytes of `sha256("global:transfer_hook")`. -/
def ANCHOR_DISC_TRANSFER_HOOK : List Nat := [220, 57, 220, 152, 126, 125, 97, 168]

/-- Anchor's 8-byte discriminator for the native
`initialize_extra_account_meta_list` catalogue entry: first 8 bytes of
`sha256("global:initialize_extra_account_meta_list")`. -/
def ANCHOR_DISC_INITIALIZE : List Nat := [92, 197, 174, 197, 41, 124, 19, 3]

/-- Modelled from the spec: the calling convention's default
entrypoint-matching (the `#[program]` dispatcher, macro expansion absent
from `src/`).  Per spec §2/§4.3, a call whose leading discriminator matches
an entry of the router's native catalogue is dispatched to that handler
directly, and "all otherwise-unmatched invocations are funneled through a
fallback path". -/
def entry (accountsOk : Bool) (log : InstructionLog) (accounts : List AccountInfo)
    (data : List Nat) : EntryOutcome :=
  if data.take 8 = ANCHOR_DISC_TRANSFER_HOOK then
    globalTransferHook accountsOk accounts (data.drop 8)
  else if data.take 8 = ANCHOR_DISC_INITIALIZE then
    .initializerRouted
  else
    match fallback log accounts data with
    | .panics => .panicked
    | .fails e => .failed e
    | .dispatches accs bytes => globalTransferHook accountsOk accs bytes

/-- The Call-Provenance Guard's acceptance condition on the instruction log:
the current index is nonzero and the instruction recorded at that index
carries the trusted host-engine identity.  This is exactly the pair of
checks `fallback` performs before decoding the payload. -/
def guardPasses (log : InstructionLog) : Bool :=
  (log.currentIndex != 0) &&
    (match log.instructions.get? log.currentIndex with
     | some ix => ix.program_id == TOKEN_2022_PROGRAM_ID
     | none => false)

/-- `ExtraAccountMetaList::size_of(num_items)` (spl-tlv-account-resolution):
the 8-byte TLV type discriminator, the 4-byte TLV length, and the pod slice
(4-byte count plus 35 bytes per item). -/
def ExtraAccountMetaList.size_of (num_items : Nat) : Nat :=
  8 + 4 + (4 + 35 * num_items)

/-- `ExtraAccountMetaList::init::<ExecuteInstruction>` serialization: the
`ExecuteInstruction` TLV discriminator, the pod-slice size as 4-byte LE
length, the 4-byte LE item count, and the packed items. -/
def serializeMetaList (metas : List ExtraAccountMeta) : List Nat :=
  EXECUTE_DISCRIMINATOR ++ natToLEBytes 4 (4 + 35 * metas.length) ++
    natToLEBytes 4 metas.length ++ (metas.map serializeMeta).flatten

/-- The state of the descriptor-storage account at the deterministic
address derived from `"extra-account-metas"` and the asset identifier:
`none` when no account exists there yet. -/
structure AccountRecord where
  lamports : Nat
  data : List Nat
  owner : Pubkey
  deriving DecidableEq, Repr

/-- `system_program::create_account`: fails when an account already exists
at the target address; otherwise creates a zero-initialized account of the
requested size, funded with the requested lamports and owned by the
requested program. -/
def create_account (st : Option AccountRecord) (lamports space : Nat)
    (owner : Pubkey) : Except Err AccountRecord :=
  match st with
  | some _ => .error .accountAlreadyInUse
  | none => .ok ⟨lamports, List.replicate space 0, owner⟩

/-- `ExtraAccountMetaList::init` writing into the account's data buffer:
fails when the buffer is too small for the serialized list, otherwise
overwrites the front of the buffer with the serialization. -/
def ExtraAccountMetaList.init (data : List Nat) (metas : List ExtraAccountMeta) :
    Except Err (List Nat) :=
  let ser := serializeMetaList metas
  if ser.length ≤ data.length then .ok (ser ++ data.drop ser.length)
  else .error (.program .InvalidAccountData)

/-- The Descriptor Initializer `initialize_extra_account_meta_list` from the
source, acting on the descriptor-storage account `st` at the deterministic
address.  `rentMinBalance` is the current storage-cost rate
(`Rent::get()?.minimum_balance`), an environment input.  Returns the
result together with the new state of the storage account. -/
def initialize_extra_account_meta_list (rentMinBalance : Nat → Nat)
    (st : Option AccountRecord) : Except Err Unit × Option AccountRecord :=
  -- let account_metas = vec![ExtraAccountMeta::new_with_pubkey(&instructions::ID, false, false)?];
  let account_metas := [ExtraAccountMeta.new_with_pubkey sysvarInstructionsID false false]
  -- let account_size = ExtraAccountMetaList::size_of(account_metas.len())? as u64;
  let account_size := ExtraAccountMetaList.size_of account_metas.length
  -- let lamports = Rent::get()?.minimum_balance(account_size as usize);
  let lamports := rentMinBalance account_size
  -- create_account(..., lamports, account_size, ctx.program_id)?;
  match create_account st lamports account_size hookProgramID with
  | .error e => (.error e, st)
  | .ok acct =>
    -- ExtraAccountMetaList::init::<ExecuteInstruction>(&mut data, &account_metas)?;
    match ExtraAccountMetaList.init acct.data account_metas with
    | .error e => (.error e, st)
    | .ok newData => (.ok (), some { acct with data := newData })

/-- Decoder for the persisted descriptor record, used to state that the
stored bytes are exactly the serialization of the intended entry list:
checks the `ExecuteInstruction` TLV discriminator and the two length
fields and recovers the entry list. -/
def deserializeMetaList (data : List Nat) : Option (List ExtraAccountMeta) :=
  if data.take 8 = EXECUTE_DISCRIMINATOR then
    let count := leBytesToNat ((data.drop 12).take 4)
    let body := data.drop 16
    if (data.drop 8).take 4 = natToLEBytes 4 (4 + 35 * count) ∧
        body.length = 35 * count then
      some ((List.range count).map (fun i =>
        let chunk := (body.drop (35 * i)).take 35
        { discriminator := chunk.headI
          addressConfig := (chunk.drop 1).take 32
          isSigner := chunk.getD 33 0 ≠ 0
          isWritable := chunk.getD 34 0 ≠ 0 }))
    else none
  else none

/-! ### Helper lemmas -/

theorem natToLEBytes_length (n a : Nat) : (natToLEBytes n a).length = n := by
  induction n generalizing a with
  | zero => rfl
  | succ n ih => simp [natToLEBytes, ih]

theorem leBytesToNat_natToLEBytes (n a : Nat) :
    leBytesToNat (natToLEBytes n a) = a % 256 ^ n := by
  induction n generalizing a with
  | zero => simp [natToLEBytes, leBytesToNat, Nat.mod_one]
  | succ n ih =>
    simp only [natToLEBytes, leBytesToNat, ih]
    have h : (256 : Nat) ^ (n + 1) = 256 * 256 ^ n := by ring
    rw [h, Nat.mod_mul]

theorem leBytesToNat_u64ToLEBytes (a : Nat) (h : a < 2 ^ 64) :
    leBytesToNat (u64ToLEBytes a) = a := by
  have h2 : (256 : Nat) ^ 8 = 2 ^ 64 := by norm_num
  rw [u64ToLEBytes, leBytesToNat_natToLEBytes, h2, Nat.mod_eq_of_lt h]

/-- When the guard's two checks hold, `fallback` reduces to the payload
decode-and-dispatch step. -/
theorem fallback_of_guard_ok (log : InstructionLog) (accounts : List AccountInfo)
    (data : List Nat) (sys : AccountInfo) (ix : IxRecord)
    (hlast : accounts.getLast? = some sys)
    (hkey : sys.key = sysvarInstructionsID)
    (hidx : log.currentIndex ≠ 0)
    (hget : log.instructions[log.currentIndex]? = some ix)
    (hpid : ix.program_id = TOKEN_2022_PROGRAM_ID) :
    fallback log accounts data =
      match TransferHookInstruction.unpack data with
      | .error e => .fails (.program e)
      | .ok (.Execute amount) => .dispatches accounts (u64ToLEBytes amount)
      | .ok _ => .fails (.anchor .InvalidInstruction) := by
  cases hu : TransferHookInstruction.unpack data with
  | error e =>
    simp [fallback, hlast, load_current_index_checked, hkey, hidx,
      load_instruction_at_checked, hget, hpid, hu]
  | ok v =>
    cases v <;>
      simp [fallback, hlast, load_current_index_checked, hkey, hidx,
        load_instruction_at_checked, hget, hpid, hu]

/-! ### Claims C2, C3, C4: the Call-Provenance Guard -/

/-- C2: whenever the current instruction index read from the instruction
log is 0, `fallback` fails with `UnauthorizedCaller`, for every payload —
the index check precedes payload decoding. -/
theorem fallback_rejects_toplevel (log : InstructionLog)
    (accounts : List AccountInfo) (data : List Nat) (sys : AccountInfo)
    (hlast : accounts.getLast? = some sys)
    (hkey : sys.key = sysvarInstructionsID)
    (hidx : log.currentIndex = 0) :
    fallback log accounts data = .fails (.anchor .UnauthorizedCaller) := by
  simp [fallback, hlast, load_current_index_checked, hkey, hidx]

theorem fallback_rejects_toplevel_witness :
    ((InstructionLog.mk 0 []).currentIndex = 0) ∧
    fallback ⟨0, []⟩ [⟨sysvarInstructionsID⟩] [9, 9, 9] =
      .fails (.anchor .UnauthorizedCaller) :=
  ⟨rfl, fallback_rejects_toplevel ⟨0, []⟩ [⟨sysvarInstructionsID⟩] [9, 9, 9]
    ⟨sysvarInstructionsID⟩ (by decide) rfl rfl⟩

/-- C3: whenever the current instruction index is nonzero but the
instruction recorded at that index carries an identity different from the
trusted Token-2022 identity, `fallback` fails with `UnauthorizedCaller`. -/
theorem fallback_rejects_untrusted_caller (log : InstructionLog)
    (accounts : List AccountInfo) (data : List Nat) (sys : AccountInfo)
    (ix : IxRecord)
    (hlast : accounts.getLast? = some sys)
    (hkey : sys.key = sysvarInstructionsID)
    (hidx : log.currentIndex ≠ 0)
    (hget : log.instructions[log.currentIndex]? = some ix)
    (hpid : ix.program_id ≠ TOKEN_2022_PROGRAM_ID) :
    fallback log accounts data = .fails (.anchor .UnauthorizedCaller) := by
  simp [fallback, hlast, load_current_index_checked, hkey, hidx,
    load_instruction_at_checked, hget, hpid]

theorem fallback_rejects_untrusted_caller_witness :
    ((InstructionLog.mk 1 [⟨hookProgramID, []⟩, ⟨hookProgramID, []⟩]).currentIndex ≠ 0) ∧
    ((InstructionLog.mk 1 [⟨hookProgramID, []⟩, ⟨hookProgramID, []⟩]).instructions[1]?
       = some ⟨hookProgramID, []⟩) ∧
    (IxRecord.mk hookProgramID []).program_id ≠ TOKEN_2022_PROGRAM_ID ∧
    fallback ⟨1, [⟨hookProgramID, []⟩, ⟨hookProgramID, []⟩]⟩ [⟨sysvarInstructionsID⟩] [] =
      .fails (.anchor .UnauthorizedCaller) :=
  ⟨by decide, by decide, by decide,
   fallback_rejects_untrusted_caller ⟨1, [⟨hookProgramID, []⟩, ⟨hookProgramID, []⟩]⟩
     [⟨sysvarInstructionsID⟩] [] ⟨sysvarInstructionsID⟩ ⟨hookProgramID, []⟩
     (by decide) rfl (by decide) (by decide) (by decide)⟩

/-- C4: whenever the current instruction index is nonzero and the
instruction recorded at that index carries exactly the trusted Token-2022
identity, the guard passes: the result of `fallback` is determined by
decoding the payload, and is in particular never `UnauthorizedCaller`. -/
theorem fallback_guard_pass_decodes (log : InstructionLog)
    (accounts : List AccountInfo) (data : List Nat) (sys : AccountInfo)
    (ix : IxRecord)
    (hlast : accounts.getLast? = some sys)
    (hkey : sys.key = sysvarInstructionsID)
    (hidx : log.currentIndex ≠ 0)
    (hget : log.instructions[log.currentIndex]? = some ix)
    (hpid : ix.program_id = TOKEN_2022_PROGRAM_ID) :
    (fallback log accounts data =
      match TransferHookInstruction.unpack data with
      | .error e => .fails (.program e)
      | .ok (.Execute amount) => .dispatches accounts (u64ToLEBytes amount)
      | .ok _ => .fails (.anchor .InvalidInstruction)) ∧
    fallback log accounts data ≠ .fails (.anchor .UnauthorizedCaller) := by
  have h := fallback_of_guard_ok log accounts data sys ix hlast hkey hidx hget hpid
  refine ⟨h, ?_⟩
  rw [h]
  cases hu : TransferHookInstruction.unpack data with
  | error e => simp
  | ok v => cases v <;> simp

/-- A payload opening with the initialize-extra-account-metas discriminator
decodes to the pod-slice result mapped into the
`InitializeExtraAccountMetaList` variant. -/
theorem unpack_init_tag (data : List Nat)
    (hinit : data.take 8 = INITIALIZE_EAM_DISCRIMINATOR) :
    TransferHookInstruction.unpack data =
      (podSliceUnpackMetas (data.drop 8)).map .InitializeExtraAccountMetaList := by
  have hlen : ¬ data.length < 8 := by
    have h1 : (data.take 8).length = 8 := by rw [hinit]; rfl
    rw [List.length_take] at h1
    omega
  have htag : data.take 8 ≠ EXECUTE_DISCRIMINATOR := by
    rw [hinit]; decide
  unfold TransferHookInstruction.unpack
  rw [if_neg hlen, if_neg htag, if_pos hinit]

/-- A payload opening with the update-extra-account-metas discriminator
decodes to the pod-slice result mapped into the
`UpdateExtraAccountMetaList` variant. -/
theorem unpack_update_tag (data : List Nat)
    (hupd : data.take 8 = UPDATE_EAM_DISCRIMINATOR) :
    TransferHookInstruction.unpack data =
      (podSliceUnpackMetas (data.drop 8)).map .UpdateExtraAccountMetaList := by
  have hlen : ¬ data.length < 8 := by
    have h1 : (data.take 8).length = 8 := by rw [hupd]; rfl
    rw [List.length_take] at h1
    omega
  have htag : data.take 8 ≠ EXECUTE_DISCRIMINATOR := by
    rw [hupd]; decide
  have hni : data.take 8 ≠ INITIALIZE_EAM_DISCRIMINATOR := by
    rw [hupd]; decide
  unfold TransferHookInstruction.unpack
  rw [if_neg hlen, if_neg htag, if_neg hni, if_pos hupd]

/-- A payload opening with none of the three interface discriminators
(including any payload shorter than 8 bytes) decodes to the interface
decode error `InvalidInstructionData`, the `_` arm of `unpack`. -/
theorem unpack_unknown_tag (data : List Nat)
    (hne : data.take 8 ≠ EXECUTE_DISCRIMINATOR)
    (hni : data.take 8 ≠ INITIALIZE_EAM_DISCRIMINATOR)
    (hnu : data.take 8 ≠ UPDATE_EAM_DISCRIMINATOR) :
    TransferHookInstruction.unpack data = .error .InvalidInstructionData := by
  unfold TransferHookInstruction.unpack
  by_cases hlen : data.length < 8
  · rw [if_pos hlen]
  · rw [if_neg hlen, if_neg hne, if_neg hni, if_neg hnu]

/-! ### Claim C5: non-Execute payloads (corrected) -/

/-- C5 counterexample: with a passing guard, a payload whose tag is
unrecognized (16 zero bytes) makes `fallback` fail with the interface
decode error `InvalidInstructionData` propagated by `?` from
`TransferHookInstruction::unpack`, which is a different error from the
program's own `InvalidInstruction` error code — so "fails with the
program's InvalidInstruction error" does not hold for unknown tags. -/
theorem fallback_unknown_tag_counterexample :
    fallback ⟨1, [⟨hookProgramID, []⟩, ⟨TOKEN_2022_PROGRAM_ID, []⟩]⟩
        [⟨sysvarInstructionsID⟩] (List.replicate 16 0) =
      .fails (.program .InvalidInstructionData) ∧
    Err.program .InvalidInstructionData ≠ Err.anchor .InvalidInstruction := by
  decide

/-- C5 (amended): under a passing guard, every payload whose leading tag is
not the Execute discriminator makes `fallback` fail, and it never
dispatches to the business rule handler.  The error is the program's own
`InvalidInstruction` exactly when the tag is one of the two other
recognized interface tags and its pod-encoded payload parses; a recognized
non-Execute tag whose pod payload is malformed fails with that pod decode
error propagated unchanged by `?`; a payload carrying none of the three
interface tags fails with the interface decode error
`InvalidInstructionData`. -/
theorem fallback_non_execute_tag_fails (log : InstructionLog)
    (accounts : List AccountInfo) (data : List Nat) (sys : AccountInfo)
    (ix : IxRecord)
    (hlast : accounts.getLast? = some sys)
    (hkey : sys.key = sysvarInstructionsID)
    (hidx : log.currentIndex ≠ 0)
    (hget : log.instructions[log.currentIndex]? = some ix)
    (hpid : ix.program_id = TOKEN_2022_PROGRAM_ID)
    (htag : data.take 8 ≠ EXECUTE_DISCRIMINATOR) :
    (∀ accs bytes, fallback log accounts data ≠ .dispatches accs bytes) ∧
    (∀ ms, (data.take 8 = INITIALIZE_EAM_DISCRIMINATOR ∨
        data.take 8 = UPDATE_EAM_DISCRIMINATOR) →
      podSliceUnpackMetas (data.drop 8) = .ok ms →
      fallback log accounts data = .fails (.anchor .InvalidInstruction)) ∧
    (∀ e, (data.take 8 = INITIALIZE_EAM_DISCRIMINATOR ∨
        data.take 8 = UPDATE_EAM_DISCRIMINATOR) →
      podSliceUnpackMetas (data.drop 8) = .error e →
      fallback log accounts data = .fails (.program e)) ∧
    (data.take 8 ≠ INITIALIZE_EAM_DISCRIMINATOR →
      data.take 8 ≠ UPDATE_EAM_DISCRIMINATOR →
      fallback log accounts data = .fails (.program .InvalidInstructionData)) := by
  have hred := fallback_of_guard_ok log accounts data sys ix hlast hkey hidx hget hpid
  refine ⟨?_, ?_, ?_, ?_⟩
  · intro accs bytes
    by_cases hni : data.take 8 = INITIALIZE_EAM_DISCRIMINATOR
    · rw [hred, unpack_init_tag data hni]
      cases hp : podSliceUnpackMetas (data.drop 8) <;> simp [Except.map]
    · by_cases hnu : data.take 8 = UPDATE_EAM_DISCRIMINATOR
      · rw [hred, unpack_update_tag data hnu]
        cases hp : podSliceUnpackMetas (data.drop 8) <;> simp [Except.map]
      · rw [hred, unpack_unknown_tag data htag hni hnu]
        simp
  · intro ms hdisc hpod
    rcases hdisc with hinit | hupd
    · rw [hred, unpack_init_tag data hinit, hpod]
      rfl
    · rw [hred, unpack_update_tag data hupd, hpod]
      rfl
  · intro e hdisc hpod
    rcases hdisc with hinit | hupd
    · rw [hred, unpack_init_tag data hinit, hpod]
      rfl
    · rw [hred, unpack_update_tag data hupd, hpod]
      rfl
  · intro hni hnu
    rw [hred, unpack_unknown_tag data htag hni hnu]

theorem fallback_non_execute_tag_fails_witness :
    (([43, 34, 13, 49, 167, 88, 235, 235, 0, 0, 0, 0] : List Nat).take 8 ≠
      EXECUTE_DISCRIMINATOR) ∧
    podSliceUnpackMetas [0, 0, 0, 0] = .ok [] ∧
    fallback ⟨1, [⟨hookProgramID, []⟩, ⟨TOKEN_2022_PROGRAM_ID, []⟩]⟩
        [⟨sysvarInstructionsID⟩] [43, 34, 13, 49, 167, 88, 235, 235, 0, 0, 0, 0] =
      .fails (.anchor .InvalidInstruction) ∧
    podSliceUnpackMetas [1, 0, 0, 0] = .error (.Custom .BufferTooSmall) ∧
    fallback ⟨1, [⟨hookProgramID, []⟩, ⟨TOKEN_2022_PROGRAM_ID, []⟩]⟩
        [⟨sysvarInstructionsID⟩] [43, 34, 13, 49, 167, 88, 235, 235, 1, 0, 0, 0] =
      .fails (.program (.Custom .BufferTooSmall)) ∧
    fallback ⟨1, [⟨hookProgramID, []⟩, ⟨TOKEN_2022_PROGRAM_ID, []⟩]⟩
        [⟨sysvarInstructionsID⟩] [9, 9, 9, 9, 9, 9, 9, 9, 9, 9, 9, 9] =
      .fails (.program .InvalidInstructionData) ∧
    ∀ accs bytes,
      fallback ⟨1, [⟨hookProgramID, []⟩, ⟨TOKEN_2022_PROGRAM_ID, []⟩]⟩
        [⟨sysvarInstructionsID⟩] [43, 34, 13, 49, 167, 88, 235, 235, 0, 0, 0, 0] ≠
        .dispatches accs bytes :=
  ⟨by decide, by decide,
   (fallback_non_execute_tag_fails ⟨1, [⟨hookProgramID, []⟩, ⟨TOKEN_2022_PROGRAM_ID, []⟩]⟩
     [⟨sysvarInstructionsID⟩] [43, 34, 13, 49, 167, 88, 235, 235, 0, 0, 0, 0]
     ⟨sysvarInstructionsID⟩ ⟨TOKEN_2022_PROGRAM_ID, []⟩
     (by decide) rfl (by decide) (by decide) rfl (by decide)).2.1
     [] (Or.inl (by decide)) (by decide),
   by decide,
   (fallback_non_execute_tag_fails ⟨1, [⟨hookProgramID, []⟩, ⟨TOKEN_2022_PROGRAM_ID, []⟩]⟩
     [⟨sysvarInstructionsID⟩] [43, 34, 13, 49, 167, 88, 235, 235, 1, 0, 0, 0]
     ⟨sysvarInstructionsID⟩ ⟨TOKEN_2022_PROGRAM_ID, []⟩
     (by decide) rfl (by decide) (by decide) rfl (by decide)).2.2.1
     (.Custom .BufferTooSmall) (Or.inl (by decide)) (by decide),
   (fallback_non_execute_tag_fails ⟨1, [⟨hookProgramID, []⟩, ⟨TOKEN_2022_PROGRAM_ID, []⟩]⟩
     [⟨sysvarInstructionsID⟩] [9, 9, 9, 9, 9, 9, 9, 9, 9, 9, 9, 9]
     ⟨sysvarInstructionsID⟩ ⟨TOKEN_2022_PROGRAM_ID, []⟩
     (by decide) rfl (by decide) (by decide) rfl (by decide)).2.2.2
     (by decide) (by decide),
   (fallback_non_execute_tag_fails ⟨1, [⟨hookProgramID, []⟩, ⟨TOKEN_2022_PROGRAM_ID, []⟩]⟩
     [⟨sysvarInstructionsID⟩] [43, 34, 13, 49, 167, 88, 235, 235, 0, 0, 0, 0]
     ⟨sysvarInstructionsID⟩ ⟨TOKEN_2022_PROGRAM_ID, []⟩
     (by decide) rfl (by decide) (by decide) rfl (by decide)).1⟩

/-! ### Claim C6: Execute payloads re-dispatch with the exact amount -/

/-- C6: with a passing guard, a payload tagged `Execute` carrying the 64-bit
little-endian amount `A` makes `fallback` re-dispatch in-process with the
same account list and the LE encoding of exactly `A`; the generated native
handler then decodes exactly `A` back from those bytes and, whenever the
account constraints accept, invokes the business rule handler with `A`. -/
theorem fallback_execute_dispatches_exact_amount (log : InstructionLog)
    (accounts : List AccountInfo) (sys : AccountInfo) (ix : IxRecord)
    (A : Nat) (tail : List Nat)
    (hlast : accounts.getLast? = some sys)
    (hkey : sys.key = sysvarInstructionsID)
    (hidx : log.currentIndex ≠ 0)
    (hget : log.instructions[log.currentIndex]? = some ix)
    (hpid : ix.program_id = TOKEN_2022_PROGRAM_ID)
    (hA : A < 2 ^ 64) :
    fallback log accounts (EXECUTE_DISCRIMINATOR ++ u64ToLEBytes A ++ tail) =
      .dispatches accounts (u64ToLEBytes A) ∧
    ∀ accountsOk,
      globalTransferHook accountsOk accounts (u64ToLEBytes A) =
        match tryAccounts accountsOk accounts with
        | .ok ctx => .handlerInvoked A (transfer_hook ctx A)
        | .error e => .failed e := by
  have hlen : ¬ (EXECUTE_DISCRIMINATOR ++ u64ToLEBytes A ++ tail).length < 8 := by
    rw [List.length_append, List.length_append]
    have h8 : EXECUTE_DISCRIMINATOR.length = 8 := rfl
    omega
  have htake8 : (EXECUTE_DISCRIMINATOR ++ u64ToLEBytes A ++ tail).take 8 =
      EXECUTE_DISCRIMINATOR := rfl
  have hdrop : (EXECUTE_DISCRIMINATOR ++ u64ToLEBytes A ++ tail).drop 8 =
      u64ToLEBytes A ++ tail := rfl
  have hlen2 : 8 ≤ ((EXECUTE_DISCRIMINATOR ++ u64ToLEBytes A ++ tail).drop 8).length := by
    rw [hdrop, List.length_append, u64ToLEBytes, natToLEBytes_length]
    omega
  have htt : ((EXECUTE_DISCRIMINATOR ++ u64ToLEBytes A ++ tail).drop 8).take 8 =
      u64ToLEBytes A := rfl
  have hunpack : TransferHookInstruction.unpack
      (EXECUTE_DISCRIMINATOR ++ u64ToLEBytes A ++ tail) = .ok (.Execute A) := by
    unfold TransferHookInstruction.unpack
    rw [if_neg hlen, if_pos htake8, if_pos hlen2, htt,
      leBytesToNat_u64ToLEBytes A hA]
  constructor
  · rw [fallback_of_guard_ok log accounts _ sys ix hlast hkey hidx hget hpid,
      hunpack]
  · intro accountsOk
    unfold globalTransferHook
    have hnl : ¬ ((u64ToLEBytes A).length < 8) := by
      rw [u64ToLEBytes, natToLEBytes_length]
      omega
    rw [if_neg hnl]
    have htk : (u64ToLEBytes A).take 8 = u64ToLEBytes A := rfl
    cases ht : tryAccounts accountsOk accounts with
    | ok ctx => simp [htk, leBytesToNat_u64ToLEBytes A hA]
    | error e => simp

theorem fallback_execute_dispatches_exact_amount_witness :
    (1000 < 2 ^ 64) ∧
    (fallback ⟨1, [⟨hookProgramID, []⟩, ⟨TOKEN_2022_PROGRAM_ID, []⟩]⟩
        [⟨[1]⟩, ⟨[2]⟩, ⟨[3]⟩, ⟨[4]⟩, ⟨[5]⟩, ⟨sysvarInstructionsID⟩]
        (EXECUTE_DISCRIMINATOR ++ u64ToLEBytes 1000 ++ []) =
      .dispatches [⟨[1]⟩, ⟨[2]⟩, ⟨[3]⟩, ⟨[4]⟩, ⟨[5]⟩, ⟨sysvarInstructionsID⟩]
        (u64ToLEBytes 1000) ∧
    ∀ accountsOk,
      globalTransferHook accountsOk
          [⟨[1]⟩, ⟨[2]⟩, ⟨[3]⟩, ⟨[4]⟩, ⟨[5]⟩, ⟨sysvarInstructionsID⟩]
          (u64ToLEBytes 1000) =
        match tryAccounts accountsOk
            [⟨[1]⟩, ⟨[2]⟩, ⟨[3]⟩, ⟨[4]⟩, ⟨[5]⟩, ⟨sysvarInstructionsID⟩] with
        | .ok ctx => .handlerInvoked 1000 (transfer_hook ctx 1000)
        | .error e => .failed e) :=
  ⟨by decide,
   fallback_execute_dispatches_exact_amount
     ⟨1, [⟨hookProgramID, []⟩, ⟨TOKEN_2022_PROGRAM_ID, []⟩]⟩
     [⟨[1]⟩, ⟨[2]⟩, ⟨[3]⟩, ⟨[4]⟩, ⟨[5]⟩, ⟨sysvarInstructionsID⟩]
     ⟨sysvarInstructionsID⟩ ⟨TOKEN_2022_PROGRAM_ID, []⟩ 1000 []
     (by decide) rfl (by decide) (by decide) rfl (by decide)⟩

/-- Whenever `fallback` reaches its re-dispatch, the guard's two checks held
on the instruction log. -/
theorem fallback_dispatches_guard (log : InstructionLog)
    (accounts : List AccountInfo) (data : List Nat)
    (accs : List AccountInfo) (bytes : List Nat)
    (h : fallback log accounts data = .dispatches accs bytes) :
    guardPasses log = true := by
  cases hl : accounts.getLast? with
  | none => simp [fallback, hl] at h
  | some sys =>
    simp only [fallback, hl] at h
    by_cases hk : sys.key = sysvarInstructionsID
    · by_cases h0 : log.currentIndex = 0
      · simp [load_current_index_checked, hk, h0] at h
      · cases hg : log.instructions[log.currentIndex]? with
        | none =>
          simp [load_current_index_checked, load_instruction_at_checked,
            hk, h0, hg] at h
        | some ix =>
          by_cases hp : ix.program_id = TOKEN_2022_PROGRAM_ID
          · simp [guardPasses, h0, hg, hp]
          · simp [load_current_index_checked, load_instruction_at_checked,
              hk, h0, hg, hp] at h
    · simp [load_current_index_checked, hk] at h

/-! ### Claim C1: guard precedes the handler (corrected) -/

/-- C1 counterexample: an invocation whose payload opens with the native
catalogue discriminator for the hook instruction is dispatched by the
default entrypoint matching straight to the generated hook handler.  Here
the handler runs (with amount 5) on a top-level call (current instruction
index 0) on which the Call-Provenance Guard's condition is false — so there
is an execution path on which the handler runs without the guard having
validated the call. -/
theorem entry_native_disc_bypasses_guard_counterexample :
    entry true ⟨0, [⟨hookProgramID, []⟩]⟩
        [⟨[1]⟩, ⟨[2]⟩, ⟨[3]⟩, ⟨[4]⟩, ⟨[5]⟩, ⟨sysvarInstructionsID⟩]
        (ANCHOR_DISC_TRANSFER_HOOK ++ u64ToLEBytes 5) =
      .handlerInvoked 5 (.ok ()) ∧
    guardPasses ⟨0, [⟨hookProgramID, []⟩]⟩ = false := by
  decide

/-- C1 (amended): every invocation that reaches the business rule handler
through the Instruction Router's fallback path — that is, any call whose
payload does not open with the native catalogue discriminator of the hook
instruction — has first passed the Call-Provenance Guard.  (Calls that do
open with the native discriminator are dispatched directly to the handler
by the default entrypoint matching, bypassing the guard.) -/
theorem entry_fallback_path_guarded (accountsOk : Bool) (log : InstructionLog)
    (accounts : List AccountInfo) (data : List Nat) (a : Nat)
    (r : Except Err Unit)
    (hnative : data.take 8 ≠ ANCHOR_DISC_TRANSFER_HOOK)
    (hinv : entry accountsOk log accounts data = .handlerInvoked a r) :
    guardPasses log = true := by
  unfold entry at hinv
  rw [if_neg hnative] at hinv
  by_cases hini : data.take 8 = ANCHOR_DISC_INITIALIZE
  · rw [if_pos hini] at hinv
    exact absurd hinv (by simp)
  · rw [if_neg hini] at hinv
    cases hf : fallback log accounts data with
    | panics => rw [hf] at hinv; exact absurd hinv (by simp)
    | fails e => rw [hf] at hinv; exact absurd hinv (by simp)
    | dispatches accs bytes =>
      exact fallback_dispatches_guard log accounts data accs bytes hf

theorem entry_fallback_path_guarded_witness :
    ((EXECUTE_DISCRIMINATOR ++ u64ToLEBytes 500).take 8 ≠
      ANCHOR_DISC_TRANSFER_HOOK) ∧
    (entry true ⟨1, [⟨hookProgramID, []⟩, ⟨TOKEN_2022_PROGRAM_ID, []⟩]⟩
        [⟨[1]⟩, ⟨[2]⟩, ⟨[3]⟩, ⟨[4]⟩, ⟨[5]⟩, ⟨sysvarInstructionsID⟩]
        (EXECUTE_DISCRIMINATOR ++ u64ToLEBytes 500) =
      .handlerInvoked 500 (.ok ())) ∧
    guardPasses ⟨1, [⟨hookProgramID, []⟩, ⟨TOKEN_2022_PROGRAM_ID, []⟩]⟩ = true :=
  ⟨by decide, by decide,
   entry_fallback_path_guarded true
     ⟨1, [⟨hookProgramID, []⟩, ⟨TOKEN_2022_PROGRAM_ID, []⟩]⟩
     [⟨[1]⟩, ⟨[2]⟩, ⟨[3]⟩, ⟨[4]⟩, ⟨[5]⟩, ⟨sysvarInstructionsID⟩]
     (EXECUTE_DISCRIMINATOR ++ u64ToLEBytes 500) 500 (.ok ())
     (by decide) (by decide)⟩

/-! ### Claims C7, C8: the Descriptor Initializer -/

/-- C7: for every storage-cost rate, initializing on a fresh address
succeeds and produces a storage account that (i) is funded with exactly the
minimum balance for the size of a one-entry descriptor, (ii) is owned by
this program, (iii) has exactly that computed size, and (iv) holds the
serialization of exactly one entry: a fixed-address reference to the
instructions sysvar, not a signer and not writable. -/
theorem initializer_builds_one_entry_descriptor (rentMinBalance : Nat → Nat) :
    ∃ acct : AccountRecord,
      initialize_extra_account_meta_list rentMinBalance none = (.ok (), some acct) ∧
      acct.lamports = rentMinBalance (ExtraAccountMetaList.size_of 1) ∧
      acct.owner = hookProgramID ∧
      acct.data.length = ExtraAccountMetaList.size_of 1 ∧
      deserializeMetaList acct.data =
        some [ExtraAccountMeta.new_with_pubkey sysvarInstructionsID false false] := by
  have hdl : (serializeMetaList
      [ExtraAccountMeta.new_with_pubkey sysvarInstructionsID false false]).length =
      ExtraAccountMetaList.size_of 1 := by decide
  have hds : deserializeMetaList (serializeMetaList
      [ExtraAccountMeta.new_with_pubkey sysvarInstructionsID false false]) =
      some [ExtraAccountMeta.new_with_pubkey sysvarInstructionsID false false] := by
    decide
  refine ⟨⟨rentMinBalance (ExtraAccountMetaList.size_of 1),
    serializeMetaList [ExtraAccountMeta.new_with_pubkey sysvarInstructionsID false false],
    hookProgramID⟩, ?_, rfl, rfl, hdl, hds⟩
  rfl

/-- C8: running the initializer a second time against the storage account
created by a first run fails — the account-creation primitive rejects the
pre-existing account — and leaves the stored record unchanged. -/
theorem initializer_second_call_fails (rent1 rent2 : Nat → Nat) :
    ∃ acct : AccountRecord,
      (initialize_extra_account_meta_list rent1 none).2 = some acct ∧
      initialize_extra_account_meta_list rent2 (some acct) =
        (.error .accountAlreadyInUse, some acct) := by
  refine ⟨⟨rent1 (ExtraAccountMetaList.size_of 1),
    serializeMetaList [ExtraAccountMeta.new_with_pubkey sysvarInstructionsID false false],
    hookProgramID⟩, ?_, rfl⟩
  rfl

/-! ### Claim C9: the business rule handler is an unconditional stub -/

/-- C9: for every account set accepted by the hook entry point's constraints
and every amount, the business rule handler `transfer_hook` returns success:
it is a stub that approves unconditionally and has no side effect. -/
theorem transfer_hook_stub_approves (ctx : TransferHookCtx) (amount : Nat) :
    transfer_hook ctx amount = .ok () :=
  rfl

/-! ### Claim C10: empty account list panics -/

/-- C10: invoked with an empty account list, `fallback` panics on the
`unwrap` of `accounts.last()` instead of returning a structured error; with
a non-empty account list the guard's reads are total — every outcome is a
structured error or a dispatch, never a panic. -/
theorem fallback_empty_accounts_panics :
    (∀ (log : InstructionLog) (data : List Nat),
      fallback log [] data = FallbackStep.panics) ∧
    (∀ (log : InstructionLog) (accounts : List AccountInfo) (data : List Nat),
      accounts ≠ [] → fallback log accounts data ≠ FallbackStep.panics) := by
  constructor
  · intro log data
    rfl
  · intro log accounts data hne h
    cases hl : accounts.getLast? with
    | none => exact hne (List.getLast?_eq_none_iff.mp hl)
    | some sys =>
      simp only [fallback, hl] at h
      by_cases hk : sys.key = sysvarInstructionsID
      · by_cases h0 : log.currentIndex = 0
        · simp [load_current_index_checked, hk, h0] at h
        · cases hg : log.instructions[log.currentIndex]? with
          | none =>
            simp [load_current_index_checked, load_instruction_at_checked,
              hk, h0, hg] at h
          | some ix =>
            by_cases hp : ix.program_id = TOKEN_2022_PROGRAM_ID
            · cases hu : TransferHookInstruction.unpack data with
              | error e =>
                simp [load_current_index_checked, load_instruction_at_checked,
                  hk, h0, hg, hp, hu] at h
              | ok v =>
                cases v <;>
                  simp [load_current_index_checked, load_instruction_at_checked,
                    hk, h0, hg, hp, hu] at h
            · simp [load_current_index_checked, load_instruction_at_checked,
                hk, h0, hg, hp] at h
      · simp [load_current_index_checked, hk] at h

theorem fallback_empty_accounts_panics_witness :
    fallback ⟨0, []⟩ [] [1, 2, 3] = FallbackStep.panics ∧
    ([⟨sysvarInstructionsID⟩] : List AccountInfo) ≠ [] ∧
    fallback ⟨0, []⟩ [⟨sysvarInstructionsID⟩] [1, 2, 3] ≠ FallbackStep.panics :=
  ⟨fallback_empty_accounts_panics.1 ⟨0, []⟩ [1, 2, 3],
   by decide,
   fallback_empty_accounts_panics.2 ⟨0, []⟩ [⟨sysvarInstructionsID⟩] [1, 2, 3]
     (by decide)⟩

theorem fallback_guard_pass_decodes_witness :
    ((InstructionLog.mk 1 [⟨hookProgramID, []⟩, ⟨TOKEN_2022_PROGRAM_ID, []⟩]).currentIndex ≠ 0) ∧
    ((InstructionLog.mk 1 [⟨hookProgramID, []⟩, ⟨TOKEN_2022_PROGRAM_ID, []⟩]).instructions[1]?
       = some ⟨TOKEN_2022_PROGRAM_ID, []⟩) ∧
    ((fallback ⟨1, [⟨hookProgramID, []⟩, ⟨TOKEN_2022_PROGRAM_ID, []⟩]⟩
        [⟨sysvarInstructionsID⟩] [7, 7] =
      match TransferHookInstruction.unpack [7, 7] with
      | .error e => .fails (.program e)
      | .ok (.Execute amount) =>
        .dispatches [⟨sysvarInstructionsID⟩] (u64ToLEBytes amount)
      | .ok _ => .fails (.anchor .InvalidInstruction)) ∧
    fallback ⟨1, [⟨hookProgramID, []⟩, ⟨TOKEN_2022_PROGRAM_ID, []⟩]⟩
        [⟨sysvarInstructionsID⟩] [7, 7] ≠ .fails (.anchor .UnauthorizedCaller)) :=
  ⟨by decide, by decide,
   fallback_guard_pass_decodes ⟨1, [⟨hookProgramID, []⟩, ⟨TOKEN_2022_PROGRAM_ID, []⟩]⟩
     [⟨sysvarInstructionsID⟩] [7, 7] ⟨sysvarInstructionsID⟩ ⟨TOKEN_2022_PROGRAM_ID, []⟩
     (by decide) rfl (by decide) rfl rfl⟩

theorem initializer_builds_one_entry_descriptor_witness :
    ∃ acct : AccountRecord,
      initialize_extra_account_meta_list (fun size => 2 * 3480 * (128 + size)) none =
        (.ok (), some acct) ∧
      acct.lamports = 2 * 3480 * (128 + ExtraAccountMetaList.size_of 1) ∧
      acct.owner = hookProgramID ∧
      acct.data.length = ExtraAccountMetaList.size_of 1 ∧
      deserializeMetaList acct.data =
        some [ExtraAccountMeta.new_with_pubkey sysvarInstructionsID false false] :=
  initializer_builds_one_entry_descriptor (fun size => 2 * 3480 * (128 + size))

theorem initializer_second_call_fails_witness :
    ∃ acct : AccountRecord,
      (initialize_extra_account_meta_list (fun size => 2 * 3480 * (128 + size)) none).2 =
        some acct ∧
      initialize_extra_account_meta_list (fun _ => 0) (some acct) =
        (.error .accountAlreadyInUse, some acct) :=
  initializer_second_call_fails (fun size => 2 * 3480 * (128 + size)) (fun _ => 0)

theorem transfer_hook_stub_approves_witness :
    transfer_hook ⟨⟨[1]⟩, ⟨[2]⟩, ⟨[3]⟩, ⟨[4]⟩, ⟨[5]⟩, ⟨sysvarInstructionsID⟩⟩ 500 =
      .ok () :=
  transfer_hook_stub_approves ⟨⟨[1]⟩, ⟨[2]⟩, ⟨[3]⟩, ⟨[4]⟩, ⟨[5]⟩, ⟨sysvarInstructionsID⟩⟩ 500
